import Mathlib

/-!
Shallow embedding of the GopherCon 2018 weather-demo serverless handlers
(weather-data-collector, weather-api, weather-assistant, weather-frontend)
and proofs about their bootstrap, pipeline, and storage behaviour.

Go errors are modelled as values of `GoError`; a Go `error` result becomes
`Except GoError α`; a run-time panic (nil dereference, index out of range)
is modelled by the `none` case of an outer `Option`.
-/

namespace WeatherDemo

/-- Go error values that appear in the handlers.  `envError name`
corresponds to the `envError` struct of the collector/frontend, whose
`Error()` text is "<name> environment variable unset or missing";
`other` covers every other `error` (driver, storage, HTTP, ...). -/
inductive GoError where
  | envError (name : String)
  | errNoRows
  | other (msg : String)
deriving DecidableEq, Repr

/-- The `Error()` text of each error value (`(*envError).Error()` / `fmt.Errorf`). -/
def GoError.message : GoError → String
  | .envError n => n ++ " environment variable unset or missing"
  | .errNoRows => "sql: no rows in result set"
  | .other m => m

/-- The `Weather` struct shared by the handlers, which is also one row of
the `weather` table: `weather(event PRIMARY KEY, location, temperature)`. -/
structure Weather where
  event : String
  location : String
  temperature : Int
deriving DecidableEq, Repr

/-- The collector upsert, from the SQL text in
weather-data-collector/function.go:

  INSERT INTO weather (event, location, temperature) VALUES ($1,$2,$3)
  ON CONFLICT (event) DO UPDATE SET temperature = EXCLUDED.temperature;

On conflict by `event` only `temperature` is rewritten; otherwise a fresh
row is appended.  The table is a list of rows keyed by `event`. -/
def upsert (db : List Weather) (event location : String) (temperature : Int) : List Weather :=
  if db.any (fun r => r.event == event) then
    db.map (fun r => if r.event == event then { r with temperature := temperature } else r)
  else
    db ++ [⟨event, location, temperature⟩]

/-- Model of `QueryRow("SELECT event,location,temperature FROM weather WHERE event = $1")`:
the unique row keyed by `event`, or `none` (→ `sql.ErrNoRows`). -/
def queryRow (db : List Weather) (event : String) : Option Weather :=
  db.find? (fun r => r.event == event)

/-- weather-api `getWeatherForEvent`: a missing row surfaces as
`sql.ErrNoRows`, any other driver failure (`dbErr`) as that error. -/
def getWeatherForEvent (db : List Weather) (dbErr : Option GoError) (event : String) :
    Except GoError Weather :=
  match dbErr with
  | some e => .error e
  | none =>
    match queryRow db event with
    | none => .error .errNoRows
    | some r => .ok r

/-- An HTTP response as written by the handlers: a status code and body.
For `http.Error` responses the body is the message passed to it (Go's
`http.Error` appends a trailing newline, which we leave implicit). -/
structure HttpResponse where
  status : Nat
  body : String
deriving DecidableEq, Repr

/-- JSON encoding of a `Weather` value as produced by
`json.NewEncoder(w).Encode(weather)` in weather-api (no field tags, so the
Go field names are used; modelled for strings that need no escaping). -/
def encodeWeather (w : Weather) : String :=
  "\x7b\"Event\":\"" ++ w.event ++ "\",\"Location\":\"" ++ w.location ++
    "\",\"Temperature\":" ++ toString w.temperature ++ "\x7d"

/-- The request-handling body of weather-api `F` after a successful
bootstrap: empty `event` → 400; `getWeatherForEvent` failure → 500 with
empty message; success → 200 with the JSON-encoded row. -/
def apiHandle (db : List Weather) (dbErr : Option GoError) (event : String) : HttpResponse :=
  if event == "" then ⟨400, "missing event query parameter"⟩
  else
    match getWeatherForEvent db dbErr event with
    | .error _ => ⟨500, ""⟩
    | .ok w => ⟨200, encodeWeather w⟩

/-! ### Collector pipeline (weather-data-collector/function.go)

External collaborators (the maps client, the weather HTTP endpoint, the
JSON decoder, the SQL driver) are passed in as functions returning
`Except GoError`.  A run-time panic (index out of range on an empty
slice) is modelled by `none` of an outer `Option`. -/

/-- One candidate of a `FindPlaceFromText` response. -/
structure Candidate where
  placeID : String
deriving DecidableEq, Repr

/-- The `FindPlaceFromText` response: a slice of candidates. -/
structure FindPlaceResponse where
  candidates : List Candidate
deriving DecidableEq, Repr

/-- One period of the hourly forecast. -/
structure Period where
  temperature : Int
deriving DecidableEq, Repr

/-- The `properties` object of the forecast. -/
structure Properties where
  periods : List Period
deriving DecidableEq, Repr

/-- The parsed `api.weather.gov` hourly-forecast document. -/
structure HourlyForecast where
  type : String
  properties : Properties
deriving DecidableEq, Repr

/-- An HTTP response as read by a client: status code and raw body. -/
structure HttpResp where
  statusCode : Nat
  body : String
deriving DecidableEq, Repr

/-- Model of `findPlaceIDFromText`: calls the maps client and returns
`r.Candidates[0].PlaceID` without checking that the slice is non-empty —
an empty candidate slice is the index-out-of-range panic (`none`). -/
def findPlaceIDFromText (mc : String → Except GoError FindPlaceResponse)
    (location : String) : Option (Except GoError String) :=
  match mc location with
  | .error e => some (.error e)
  | .ok r => (r.candidates.get? 0).map (fun c => Except.ok c.placeID)

/-- Model of `geoFromLocation`: find-place-by-text, then place details
(`getLatLng`).  The coordinate type is abstract (`α`, float64 in Go)
since only its flow through the pipeline matters. -/
def geoFromLocation {α : Type} (mc : String → Except GoError FindPlaceResponse)
    (details : String → Except GoError α) (location : String) :
    Option (Except GoError α) :=
  match findPlaceIDFromText mc location with
  | none => none
  | some (.error e) => some (.error e)
  | some (.ok id) =>
    match details id with
    | .error e => some (.error e)
    | .ok g => some (.ok g)

/-- Model of the collector's `getTemperature` after the point-forecast URL
is built: `doRequest` is the flattened outcome of
`NewRequest`/`Do`/`ReadAll` (any of their failures is its `.error` case),
`unmarshal` is `json.Unmarshal` into `HourlyForecast`.  The response
status code is never read; `forecast.Properties.Periods[0]` is an
unguarded index, so an empty period slice is the panic (`none`). -/
def getTemperature (doRequest : Except GoError HttpResp)
    (unmarshal : String → Except GoError HourlyForecast) :
    Option (Except GoError Int) :=
  match doRequest with
  | .error e => some (.error e)
  | .ok resp =>
    match unmarshal resp.body with
    | .error e => some (.error e)
    | .ok forecast =>
      (forecast.properties.periods.get? 0).map (fun p => Except.ok p.temperature)

/-- Model of `updateDatabase`: `config.db.Exec(query, event, location,
temperature)`.  A driver error leaves the table unchanged; success
performs the upsert. -/
def updateDatabase (dbExecErr : Option GoError) (db : List Weather)
    (event location : String) (temperature : Int) :
    Except GoError Unit × List Weather :=
  match dbExecErr with
  | some e => (.error e, db)
  | none => (.ok (), upsert db event location temperature)

/-- The collector's trigger payload. -/
structure PubSubMessage where
  event : String
  location : String
deriving DecidableEq, Repr

/-- Model of the collector's `F` after the once-guard has run:
`cfgErr` is `config.Error()`; each later step short-circuits, and the
upsert runs last.  The result is the returned `error` (or success)
paired with the table state; `none` is a panic inside a step. -/
def collectorF {α : Type} (cfgErr : Option GoError)
    (mc : String → Except GoError FindPlaceResponse)
    (details : String → Except GoError α)
    (fetchForecast : α → Except GoError HttpResp)
    (unmarshal : String → Except GoError HourlyForecast)
    (dbExecErr : Option GoError)
    (db : List Weather) (m : PubSubMessage) :
    Option (Except GoError Unit × List Weather) :=
  match cfgErr with
  | some e => some (.error e, db)
  | none =>
    match geoFromLocation mc details m.location with
    | none => none
    | some (.error e) => some (.error e, db)
    | some (.ok latlng) =>
      match getTemperature (fetchForecast latlng) unmarshal with
      | none => none
      | some (.error e) => some (.error e, db)
      | some (.ok t) => some (updateDatabase dbExecErr db m.event m.location t)

/-! ### Conversational webhook (weather-assistant/function.go) -/

/-- The single-field webhook reply. -/
structure WebhookResponse where
  fulfillmentText : String
deriving DecidableEq, Repr

/-- The query result inside a webhook request; `parameters` models Go's
`map[string]string` as an association list. -/
structure QueryResult where
  action : String
  parameters : List (String × String)
deriving DecidableEq, Repr

/-- The webhook request envelope. -/
structure WebhookRequest where
  queryResult : QueryResult
deriving DecidableEq, Repr

/-- Go map indexing `m[k]` on a `map[string]string`: the zero value `""`
when the key is absent. -/
def mapGet (m : List (String × String)) (k : String) : String :=
  match m.find? (fun p => p.1 == k) with
  | some p => p.2
  | none => ""

/-- The sentence built by the assistant:
`fmt.Sprintf("The current temperature in %s is %d degrees fahrenheit.", location, temperature)`. -/
def fulfillmentSentence (location : String) (temperature : Int) : String :=
  "The current temperature in " ++ location ++ " is " ++ toString temperature ++
    " degrees fahrenheit."

/-- Model of the assistant's `getWeather`: build the URL with the escaped
event, GET it, reject a non-200 status, then unmarshal the body. -/
def getWeather (doGet : String → Except GoError HttpResp)
    (unmarshalWeather : String → Except GoError Weather)
    (queryEscape : String → String)
    (weatherApiUrl : String) (event : String) : Except GoError Weather :=
  let u := weatherApiUrl ++ "?event=" ++ queryEscape event
  match doGet u with
  | .error e => .error e
  | .ok resp =>
    if resp.statusCode ≠ 200 then
      .error (.other ("non 200 response code: " ++ resp.body))
    else
      unmarshalWeather resp.body

/-- The three ways the assistant's request handling can end. -/
inductive AssistantOutcome where
  | badRequest
  | serverError
  | success (resp : WebhookResponse)
deriving DecidableEq, Repr

/-- The HTTP status written for each assistant outcome. -/
def AssistantOutcome.status : AssistantOutcome → Nat
  | .badRequest => 400
  | .serverError => 500
  | .success _ => 200

/-- Model of the assistant's `F` after a successful bootstrap: read the
body, unmarshal the envelope, extract the `event` parameter, delegate to
`getWeather`, and on success reply with the single fulfillment-text
field. -/
def assistantHandle (doGet : String → Except GoError HttpResp)
    (unmarshalWeather : String → Except GoError Weather)
    (queryEscape : String → String)
    (unmarshalRequest : String → Except GoError WebhookRequest)
    (weatherApiUrl : String)
    (requestBody : Except GoError String) : AssistantOutcome :=
  match requestBody with
  | .error _ => .badRequest
  | .ok data =>
    match unmarshalRequest data with
    | .error _ => .badRequest
    | .ok wr =>
      match getWeather doGet unmarshalWeather queryEscape weatherApiUrl
          (mapGet wr.queryResult.parameters "event") with
      | .error _ => .serverError
      | .ok w => .success ⟨fulfillmentSentence w.location w.temperature⟩

/-! ### Once-guarded bootstrap (collector / frontend shape)

In these variants `configFunc` records its outcome in `config.err`;
`F` runs `config.once.Do(func() { configFunc() })` and then reads
`config.Error()`.  `sync.Once` serialises concurrent callers through a
mutex, so any interleaving of invocations is some sequential order of
`once.Do` calls; we therefore model a process history as a sequence. -/

/-- The process-global `configuration` value: whether the once-guard has
fired, how many times `configFunc` actually ran, and the recorded error. -/
structure ConfigState where
  done : Bool
  execCount : Nat
  err : Option GoError
deriving DecidableEq, Repr

/-- The state at process start (`init` allocates an empty configuration). -/
def initConfigState : ConfigState := ⟨false, 0, none⟩

/-- One `config.once.Do(func() { configFunc() })` call.  `outcome` is the
(deterministic, environment-fixed) error `defaultConfigFunc` would
record.  A completed guard is a no-op; otherwise the guarded function
runs exactly here. -/
def onceDo (outcome : Option GoError) (st : ConfigState) : ConfigState :=
  if st.done then st
  else { done := true, execCount := st.execCount + 1, err := outcome }

/-- One bootstrap step of an invocation: run the guard, then observe
`config.Error()`. -/
def collectorBoot (outcome : Option GoError) (st : ConfigState) :
    ConfigState × Option GoError :=
  let st' := onceDo outcome st
  (st', st'.err)

/-- A history of `n` invocations: the final state and each invocation's
observed `config.Error()`. -/
def runBoots (outcome : Option GoError) (st : ConfigState) :
    Nat → ConfigState × List (Option GoError)
  | 0 => (st, [])
  | n + 1 =>
    let p := collectorBoot outcome st
    let q := runBoots outcome p.1 n
    (q.1, p.2 :: q.2)

/-- The early-exit response of frontend `F` (and of the part_000 api
variant): a recorded bootstrap error is written as
`http.Error(w, config.Error().Error(), http.StatusBadRequest)`; with no
error the handler proceeds past the gate (`none`). -/
def frontendGate (err : Option GoError) : Option HttpResponse :=
  err.map (fun e => ⟨400, e.message⟩)

/-- A history of `n` frontend invocations: each one runs the once-guard
and then the bootstrap error gate. -/
def frontendRun (outcome : Option GoError) (st : ConfigState) (n : Nat) :
    ConfigState × List (Option HttpResponse) :=
  let q := runBoots outcome st n
  (q.1, q.2.map frontendGate)

/-- The environment and external results seen by the frontend's
`defaultConfigFunc`: `getenv` is `os.Getenv` (unset reads as `""`). -/
structure FrontendEnv where
  getenv : String → String
  exporterErr : Option GoError
  templateErr : Option GoError

/-- Model of the frontend's `defaultConfigFunc`: require `GCP_PROJECT`,
register the exporter, parse the template; the first failure is recorded
in `config.err`. -/
def frontendConfigFunc (env : FrontendEnv) : Option GoError :=
  if env.getenv "GCP_PROJECT" == "" then some (.envError "GCP_PROJECT")
  else
    match env.exporterErr with
    | some e => some e
    | none =>
      match env.templateErr with
      | some e => some e
      | none => none

/-! ### Once-guarded bootstrap (weather-api / weather-assistant shape)

In these variants `configFunc` returns an error and `F` panics on it
inside `once.Do`; `sync.Once` marks the guard complete even when the
guarded function panics (its `done` flag is stored in a defer), so the
function never runs again.  On every later invocation the guard is a
no-op and the handler registers `defer logger.Flush()` on the still-nil
logger, which panics when dereferenced. -/

/-- Process state of the api/assistant variants: the once flag, the run
count of `configFunc`, and whether the package-level logger was set. -/
structure ApiState where
  done : Bool
  execCount : Nat
  loggerSet : Bool
deriving DecidableEq, Repr

/-- The api/assistant process state at start. -/
def initApiState : ApiState := ⟨false, 0, false⟩

/-- How one api/assistant invocation ends: a panic escaping the handler,
or an HTTP response. -/
inductive ApiOutcome where
  | panicked (msg : String)
  | responded (resp : HttpResponse)
deriving DecidableEq, Repr

/-- One invocation of api/assistant `F`.  `cfgResult` is the fixed
outcome `configFunc` would return; `handle` is the request handling that
runs once the bootstrap succeeded (it ends with the deferred
`logger.Flush()` on the by-then non-nil logger). -/
def apiInvoke (cfgResult : Except GoError Unit) (handle : Unit → HttpResponse)
    (st : ApiState) : ApiState × ApiOutcome :=
  if st.done then
    if st.loggerSet then (st, .responded (handle ()))
    else
      (st, .panicked "runtime error: invalid memory address or nil pointer dereference")
  else
    match cfgResult with
    | .error e =>
      ({ done := true, execCount := st.execCount + 1, loggerSet := false },
        .panicked e.message)
    | .ok _ =>
      ({ done := true, execCount := st.execCount + 1, loggerSet := true },
        .responded (handle ()))

/-- A history of `n` api/assistant invocations. -/
def apiRun (cfgResult : Except GoError Unit) (handle : Unit → HttpResponse)
    (st : ApiState) : Nat → ApiState × List ApiOutcome
  | 0 => (st, [])
  | n + 1 =>
    let p := apiInvoke cfgResult handle st
    let q := apiRun cfgResult handle p.1 n
    (q.1, p.2 :: q.2)

/-! ### The collector's `defaultConfigFunc` (secret fetch + env writes) -/

/-- Environment and external-call results seen by the collector's
`defaultConfigFunc`.  `fetchString` / `fetchTempFile` model
`objectToString` / `objectToTempFile` on the configuration bucket (the
latter returns the temp-file path); `setenvErr` is the result of
`os.Setenv` per key/value. -/
structure BootWorld where
  getenv : String → String
  exporterErr : Option GoError
  storageClientErr : Option GoError
  mapsClientErr : Option GoError
  fetchString : String → Except GoError String
  fetchTempFile : String → Except GoError String
  setenvErr : String → String → Option GoError
  sqlOpenErr : Option GoError

/-- What a run of the collector's `defaultConfigFunc` did: the
`os.Setenv` writes it performed (in order), the connection string it
built (if it got that far), whether `sql.Open` succeeded, and the
recorded `config.err`. -/
structure BootResult where
  envWrites : List (String × String)
  dsn : Option String
  dbOpened : Bool
  err : Option GoError
deriving Repr

/-- Model of the collector's `defaultConfigFunc`, step by step in source
order: required env vars, exporter, storage client, maps API key and
client, the password and the three TLS temp files, the three `os.Setenv`
calls for the TLS file paths, the connection string holding the
password, and `sql.Open`. -/
def collectorConfigFunc (w : BootWorld) : BootResult :=
  if w.getenv "GCP_PROJECT" == "" then
    ⟨[], none, false, some (.envError "GCP_PROJECT")⟩
  else
    match w.exporterErr with
    | some e => ⟨[], none, false, some e⟩
    | none =>
      if w.getenv "CONFIGURATION_BUCKET_NAME" == "" then
        ⟨[], none, false, some (.envError "CONFIGURATION_BUCKET_NAME")⟩
      else
        match w.storageClientErr with
        | some e => ⟨[], none, false, some e⟩
        | none =>
          match w.fetchString "maps-api-key" with
          | .error e => ⟨[], none, false, some e⟩
          | .ok _apiKey =>
            match w.mapsClientErr with
            | some e => ⟨[], none, false, some e⟩
            | none =>
              match w.fetchString "password" with
              | .error e => ⟨[], none, false, some e⟩
              | .ok password =>
                match w.fetchTempFile "client.pem" with
                | .error e => ⟨[], none, false, some e⟩
                | .ok clientCert =>
                  match w.fetchTempFile "client.key" with
                  | .error e => ⟨[], none, false, some e⟩
                  | .ok clientKey =>
                    match w.fetchTempFile "server.pem" with
                    | .error e => ⟨[], none, false, some e⟩
                    | .ok serverCert =>
                      match w.setenvErr "PGSSLCERT" clientCert with
                      | some e => ⟨[], none, false, some e⟩
                      | none =>
                        match w.setenvErr "PGSSLKEY" clientKey with
                        | some e => ⟨[("PGSSLCERT", clientCert)], none, false, some e⟩
                        | none =>
                          match w.setenvErr "PGSSLROOTCERT" serverCert with
                          | some e =>
                            ⟨[("PGSSLCERT", clientCert), ("PGSSLKEY", clientKey)],
                              none, false, some e⟩
                          | none =>
                            let writes := [("PGSSLCERT", clientCert),
                              ("PGSSLKEY", clientKey), ("PGSSLROOTCERT", serverCert)]
                            let dsn := "password=" ++ "\x27" ++ password ++ "\x27"
                            match w.sqlOpenErr with
                            | some e => ⟨writes, some dsn, false, some e⟩
                            | none => ⟨writes, some dsn, true, none⟩

/-! ## Helper lemmas -/

/-- Once the guard has fired, every further invocation leaves the
configuration untouched and observes the stored error. -/
theorem runBoots_done (outcome : Option GoError) (st : ConfigState)
    (h : st.done = true) :
    ∀ n, runBoots outcome st n = (st, List.replicate n st.err) := by
  intro n
  induction n with
  | zero => simp [runBoots]
  | succ n ih => simp [runBoots, collectorBoot, onceDo, h, ih, List.replicate]

/-- From a fresh process, every invocation observes the same
`configFunc` outcome. -/
theorem runBoots_obs (outcome : Option GoError) (n : Nat) :
    (runBoots outcome initConfigState n).2 = List.replicate n outcome := by
  cases n with
  | zero => simp [runBoots]
  | succ n =>
    have h := runBoots_done outcome ⟨true, 1, outcome⟩ rfl n
    simp [runBoots, collectorBoot, onceDo, initConfigState, h, List.replicate]

/-- After a failed api/assistant bootstrap (guard fired, logger still
nil), every invocation panics on the nil logger. -/
theorem apiRun_done_nilLogger (cfgResult : Except GoError Unit)
    (handle : Unit → HttpResponse) (st : ApiState)
    (h1 : st.done = true) (h2 : st.loggerSet = false) :
    ∀ n, apiRun cfgResult handle st n =
      (st, List.replicate n
        (.panicked "runtime error: invalid memory address or nil pointer dereference")) := by
  intro n
  induction n with
  | zero => simp [apiRun]
  | succ n ih => simp [apiRun, apiInvoke, h1, h2, ih, List.replicate]

/-! ## Claims -/

/-- C1: for every sequence of handler invocations in one process
(concurrent first requests serialise through the `sync.Once` mutex, so a
history is a sequence), `configFunc` runs exactly once; every invocation
observes the outcome of that single run, the stored error stays sticky,
and a failure is never retried.  The last conjunct covers the
weather-api/assistant variant of the guard, where the guarded function
likewise runs exactly once whatever its outcome. -/
theorem configFunc_exactly_once (outcome : Option GoError) (n : Nat) (hn : 1 ≤ n)
    (cfgResult : Except GoError Unit) (handle : Unit → HttpResponse) :
    (runBoots outcome initConfigState n).1.execCount = 1 ∧
    (runBoots outcome initConfigState n).1.err = outcome ∧
    (runBoots outcome initConfigState n).2 = List.replicate n outcome ∧
    (apiRun cfgResult handle initApiState n).1.execCount = 1 := by
  obtain ⟨m, rfl⟩ : ∃ m, n = m + 1 := ⟨n - 1, (Nat.succ_pred_eq_of_pos hn).symm⟩
  have h := runBoots_done outcome ⟨true, 1, outcome⟩ rfl m
  refine ⟨?_, ?_, ?_, ?_⟩
  · simp [runBoots, collectorBoot, onceDo, initConfigState, h]
  · simp [runBoots, collectorBoot, onceDo, initConfigState, h]
  · exact runBoots_obs outcome (m + 1)
  · cases cfgResult with
    | error e =>
      have h2 := apiRun_done_nilLogger (.error e) handle ⟨true, 1, false⟩ rfl rfl m
      simp [apiRun, apiInvoke, initApiState, h2]
    | ok u =>
      have h2 : ∀ k, apiRun (.ok u) handle ⟨true, 1, true⟩ k =
          (⟨true, 1, true⟩, List.replicate k (.responded (handle ()))) := by
        intro k
        induction k with
        | zero => simp [apiRun]
        | succ k ih => simp [apiRun, apiInvoke, ih, List.replicate]
      simp [apiRun, apiInvoke, initApiState, h2]

/-- Witness for C1 at `outcome = some (envError "GCP_PROJECT")`, three
invocations, and a failing api-variant bootstrap. -/
theorem configFunc_exactly_once_witness :
    1 ≤ 3 ∧
    ((runBoots (some (.envError "GCP_PROJECT")) initConfigState 3).1.execCount = 1 ∧
     (runBoots (some (.envError "GCP_PROJECT")) initConfigState 3).1.err =
       some (.envError "GCP_PROJECT") ∧
     (runBoots (some (.envError "GCP_PROJECT")) initConfigState 3).2 =
       List.replicate 3 (some (.envError "GCP_PROJECT")) ∧
     (apiRun (.error (.other "boom")) (fun _ => ⟨200, "ok"⟩) initApiState 3).1.execCount = 1) :=
  ⟨by decide,
    configFunc_exactly_once (some (.envError "GCP_PROJECT")) 3 (by decide)
      (.error (.other "boom")) (fun _ => ⟨200, "ok"⟩)⟩

/-- C2 counterexample: with `GCP_PROJECT` unset the frontend records the
error naming that variable, but every request is answered with HTTP 400
(Bad Request), which is not a server error (5xx) as the claim states. -/
theorem missing_env_counterexample :
    frontendConfigFunc ⟨fun _ => "", none, none⟩ = some (.envError "GCP_PROJECT") ∧
    (frontendRun (frontendConfigFunc ⟨fun _ => "", none, none⟩) initConfigState 2).2 =
      [some ⟨400, "GCP_PROJECT environment variable unset or missing"⟩,
       some ⟨400, "GCP_PROJECT environment variable unset or missing"⟩] ∧
    ¬ 500 ≤ 400 := by
  refine ⟨rfl, ?_, by decide⟩
  decide

/-- C2 (amended): if `GCP_PROJECT` is unset at startup, the bootstrap
records an error naming that exact variable, and every subsequent request
to the frontend handler fails with HTTP 400 (Bad Request) carrying that
message, until the process restarts. -/
theorem missing_env_sticky_400 (env : FrontendEnv) (n : Nat)
    (h : env.getenv "GCP_PROJECT" = "") :
    frontendConfigFunc env = some (.envError "GCP_PROJECT") ∧
    (GoError.envError "GCP_PROJECT").message =
      "GCP_PROJECT environment variable unset or missing" ∧
    ∀ resp ∈ (frontendRun (frontendConfigFunc env) initConfigState n).2,
      resp = some ⟨400, "GCP_PROJECT environment variable unset or missing"⟩ := by
  have hc : frontendConfigFunc env = some (.envError "GCP_PROJECT") := by
    simp [frontendConfigFunc, h]
  refine ⟨hc, rfl, ?_⟩
  intro resp hresp
  rw [frontendRun] at hresp
  simp only [List.mem_map] at hresp
  obtain ⟨err, herr, rfl⟩ := hresp
  rw [runBoots_obs] at herr
  have := List.eq_of_mem_replicate herr
  subst this
  rw [hc]
  rfl

/-- Witness for C2's amended theorem: all-empty environment, two requests. -/
theorem missing_env_sticky_400_witness :
    (FrontendEnv.getenv ⟨fun _ => "", none, none⟩ "GCP_PROJECT" = "") ∧
    (frontendConfigFunc ⟨fun _ => "", none, none⟩ = some (.envError "GCP_PROJECT") ∧
     (GoError.envError "GCP_PROJECT").message =
       "GCP_PROJECT environment variable unset or missing" ∧
     ∀ resp ∈ (frontendRun (frontendConfigFunc ⟨fun _ => "", none, none⟩) initConfigState 2).2,
       resp = some ⟨400, "GCP_PROJECT environment variable unset or missing"⟩) :=
  ⟨rfl, missing_env_sticky_400 ⟨fun _ => "", none, none⟩ 2 rfl⟩

/-- C3: two collector upserts with the same event key leave exactly one
row for that event; its temperature is the second upsert's temperature
and its location is the first (insert-time) location — the conflict
branch updates temperature only and never overwrites location. -/
theorem upsert_conflict_updates_temperature_only
    (db : List Weather) (e l₁ l₂ : String) (t₁ t₂ : Int)
    (h : ∀ r ∈ db, r.event ≠ e) :
    (upsert (upsert db e l₁ t₁) e l₂ t₂).filter (fun r => r.event == e) =
      [⟨e, l₁, t₂⟩] := by
  have hany : db.any (fun r => r.event == e) = false := by
    simp only [List.any_eq_false, beq_iff_eq]
    exact h
  have h1 : upsert db e l₁ t₁ = db ++ [⟨e, l₁, t₁⟩] := by
    simp [upsert, hany]
  have hany2 : (db ++ [(⟨e, l₁, t₁⟩ : Weather)]).any (fun r => r.event == e) = true := by
    simp [List.any_append]
  have hmap : db.map
      (fun r => if r.event == e then { r with temperature := t₂ } else r) = db := by
    conv_rhs => rw [← List.map_id db]
    refine List.map_congr_left ?_
    intro r hr
    simp [beq_eq_false_iff_ne.mpr (h r hr)]
  have hfil : db.filter (fun r => r.event == e) = [] := by
    rw [List.filter_eq_nil_iff]
    intro r hr
    simp [beq_eq_false_iff_ne.mpr (h r hr)]
  rw [h1]
  simp only [upsert, hany2, if_true, List.map_append, hmap, List.filter_append, hfil,
    List.nil_append, List.map_cons, List.map_nil]
  simp [hfil]

/-- Witness for C3: a one-row table without the key, then two upserts for
`GopherCon`. -/
theorem upsert_conflict_updates_temperature_only_witness :
    (∀ r ∈ [(⟨"Other", "X", 1⟩ : Weather)], r.event ≠ "GopherCon") ∧
    (upsert (upsert [⟨"Other", "X", 1⟩] "GopherCon" "Denver, Colorado, USA" 72)
        "GopherCon" "Elsewhere" 80).filter (fun r => r.event == "GopherCon") =
      [⟨"GopherCon", "Denver, Colorado, USA", 80⟩] :=
  ⟨by decide,
    upsert_conflict_updates_temperature_only [⟨"Other", "X", 1⟩]
      "GopherCon" "Denver, Colorado, USA" "Elsewhere" 72 80 (by decide)⟩

/-- C4: for a non-empty event with no stored row, the query handler
responds 500 with an empty message — the same response as every other
database failure — and never a 200. -/
theorem no_row_gives_500 (db : List Weather) (event : String)
    (hev : event ≠ "") (hq : queryRow db event = none) :
    apiHandle db none event = ⟨500, ""⟩ ∧
    (apiHandle db none event).status ≠ 200 ∧
    ∀ e, apiHandle db (some e) event = ⟨500, ""⟩ := by
  have hb : (event == "") = false := beq_eq_false_iff_ne.mpr hev
  refine ⟨?_, ?_, ?_⟩
  · simp [apiHandle, getWeatherForEvent, hq, hb]
  · simp [apiHandle, getWeatherForEvent, hq, hb]
  · intro e
    simp [apiHandle, getWeatherForEvent, hb]

/-- Witness for C4: empty table, event `GopherCon`. -/
theorem no_row_gives_500_witness :
    ("GopherCon" ≠ "") ∧ queryRow [] "GopherCon" = none ∧
    (apiHandle [] none "GopherCon" = ⟨500, ""⟩ ∧
     (apiHandle [] none "GopherCon").status ≠ 200 ∧
     ∀ e, apiHandle [] (some e) "GopherCon" = ⟨500, ""⟩) :=
  ⟨by decide, rfl, no_row_gives_500 [] "GopherCon" (by decide) rfl⟩

/-- C5: if the geocoding or forecast step fails, the collector returns
that step's error and the table is untouched; conversely the only way
the table changes is that both steps and the driver call succeeded and
the change is exactly the upsert. -/
theorem pipeline_aborts_on_step_failure {α : Type}
    (mc : String → Except GoError FindPlaceResponse)
    (details : String → Except GoError α)
    (ff : α → Except GoError HttpResp)
    (um : String → Except GoError HourlyForecast)
    (dbExecErr : Option GoError) (db : List Weather) (m : PubSubMessage)
    (e : GoError) :
    (geoFromLocation mc details m.location = some (.error e) →
      collectorF none mc details ff um dbExecErr db m = some (.error e, db)) ∧
    (∀ latlng, geoFromLocation mc details m.location = some (.ok latlng) →
      getTemperature (ff latlng) um = some (.error e) →
      collectorF none mc details ff um dbExecErr db m = some (.error e, db)) ∧
    (∀ r db', collectorF none mc details ff um dbExecErr db m = some (r, db') →
      db' ≠ db →
      ∃ latlng t, geoFromLocation mc details m.location = some (.ok latlng) ∧
        getTemperature (ff latlng) um = some (.ok t) ∧ dbExecErr = none ∧
        r = .ok () ∧ db' = upsert db m.event m.location t) := by
  refine ⟨?_, ?_, ?_⟩
  · intro hgeo
    simp [collectorF, hgeo]
  · intro latlng hgeo htemp
    simp [collectorF, hgeo, htemp]
  · intro r db' hC hne
    rcases hgeo : geoFromLocation mc details m.location with _ | g
    · simp [collectorF, hgeo] at hC
    · rcases g with ge | latlng
      · simp [collectorF, hgeo] at hC
        exact absurd hC.2.symm hne
      · rcases htemp : getTemperature (ff latlng) um with _ | t
        · simp [collectorF, hgeo, htemp] at hC
        · rcases t with te | t
          · simp [collectorF, hgeo, htemp] at hC
            exact absurd hC.2.symm hne
          · rcases hdb : dbExecErr with _ | de
            · have hC' : Except.ok () = r ∧ upsert db m.event m.location t = db' := by
                simpa [collectorF, hgeo, htemp, hdb, updateDatabase] using hC
              exact ⟨latlng, t, rfl, htemp, rfl, hC'.1.symm, hC'.2.symm⟩
            · simp [collectorF, hgeo, htemp, hdb, updateDatabase] at hC
              exact absurd hC.2.symm hne

/-- Witness for C5: a failing maps client propagates its error and the
table is untouched. -/
theorem pipeline_aborts_on_step_failure_witness :
    geoFromLocation (fun _ => .error (.other "maps down"))
        (fun _ => (.ok 0 : Except GoError Int)) "Denver" =
      some (.error (.other "maps down")) ∧
    collectorF none (fun _ => .error (.other "maps down"))
        (fun _ => (.ok 0 : Except GoError Int)) (fun _ => .ok ⟨200, ""⟩)
        (fun _ => .error (.other "bad json")) none
        [] ⟨"GopherCon", "Denver"⟩ =
      some (.error (.other "maps down"), []) :=
  ⟨rfl,
    (pipeline_aborts_on_step_failure (fun _ => .error (.other "maps down"))
        (fun _ => (.ok 0 : Except GoError Int)) (fun _ => .ok ⟨200, ""⟩)
        (fun _ => .error (.other "bad json")) none [] ⟨"GopherCon", "Denver"⟩
        (.other "maps down")).1 rfl⟩

/-- C6: when the downstream weather lookup answers 200 with a body
decoding to location `L` and temperature `T`, the webhook handler
succeeds (status 200) with the single fulfillment-text field equal to
the exact sentence; when the downstream status is not 200 it answers
500. -/
theorem assistant_fulfillment
    (doGet : String → Except GoError HttpResp)
    (umw : String → Except GoError Weather)
    (qe : String → String)
    (umr : String → Except GoError WebhookRequest)
    (apiUrl data : String) (wr : WebhookRequest)
    (hreq : umr data = .ok wr) :
    (∀ b ev L T,
      doGet (apiUrl ++ "?event=" ++ qe (mapGet wr.queryResult.parameters "event")) =
        .ok ⟨200, b⟩ →
      umw b = .ok ⟨ev, L, T⟩ →
      assistantHandle doGet umw qe umr apiUrl (.ok data) =
        .success ⟨"The current temperature in " ++ L ++ " is " ++ toString T ++
          " degrees fahrenheit."⟩ ∧
      (assistantHandle doGet umw qe umr apiUrl (.ok data)).status = 200) ∧
    (∀ s b, s ≠ 200 →
      doGet (apiUrl ++ "?event=" ++ qe (mapGet wr.queryResult.parameters "event")) =
        .ok ⟨s, b⟩ →
      assistantHandle doGet umw qe umr apiUrl (.ok data) = .serverError ∧
      (assistantHandle doGet umw qe umr apiUrl (.ok data)).status = 500) := by
  constructor
  · intro b ev L T hdo hw
    have : assistantHandle doGet umw qe umr apiUrl (.ok data) =
        .success ⟨fulfillmentSentence L T⟩ := by
      simp [assistantHandle, hreq, getWeather, hdo, hw]
    exact ⟨this, by rw [this]; rfl⟩
  · intro s b hs hdo
    have : assistantHandle doGet umw qe umr apiUrl (.ok data) = .serverError := by
      simp [assistantHandle, hreq, getWeather, hdo, hs]
    exact ⟨this, by rw [this]; rfl⟩

/-- Witness for C6: a downstream 200 with Denver at 72 degrees yields the
exact sentence of the spec. -/
theorem assistant_fulfillment_witness :
    ((fun _ => .ok ⟨⟨"weather", [("event", "GopherCon")]⟩⟩ :
        String → Except GoError WebhookRequest) "req" =
      .ok ⟨⟨"weather", [("event", "GopherCon")]⟩⟩) ∧
    assistantHandle (fun _ => .ok ⟨200, "body"⟩)
        (fun _ => .ok ⟨"GopherCon", "Denver", 72⟩) (fun s => s)
        (fun _ => .ok ⟨⟨"weather", [("event", "GopherCon")]⟩⟩) "http://api" (.ok "req") =
      .success ⟨"The current temperature in Denver is 72 degrees fahrenheit."⟩ := by
  refine ⟨rfl, ?_⟩
  have h := (assistant_fulfillment (fun _ => .ok ⟨200, "body"⟩)
      (fun _ => .ok ⟨"GopherCon", "Denver", 72⟩) (fun s => s)
      (fun _ => .ok ⟨⟨"weather", [("event", "GopherCon")]⟩⟩) "http://api" "req"
      ⟨⟨"weather", [("event", "GopherCon")]⟩⟩ rfl).1 "body" "GopherCon" "Denver" 72 rfl rfl
  exact h.1.trans (by decide)

/-- C7: a successful bootstrap writes exactly the three TLS file-path
environment variables (with the fetched temp-file paths as values) and
places the fetched password only in the in-memory connection string;
whatever the bootstrap does, it never writes any other variable. -/
theorem password_only_in_dsn (w : BootWorld) (pw cc ck sc : String)
    (hpw : w.fetchString "password" = .ok pw)
    (hcc : w.fetchTempFile "client.pem" = .ok cc)
    (hck : w.fetchTempFile "client.key" = .ok ck)
    (hsc : w.fetchTempFile "server.pem" = .ok sc)
    (hok : (collectorConfigFunc w).err = none) :
    (collectorConfigFunc w).envWrites =
      [("PGSSLCERT", cc), ("PGSSLKEY", ck), ("PGSSLROOTCERT", sc)] ∧
    (collectorConfigFunc w).dsn = some ("password=" ++ "\x27" ++ pw ++ "\x27") ∧
    (pw ≠ cc → pw ≠ ck → pw ≠ sc →
      ∀ kv ∈ (collectorConfigFunc w).envWrites, kv.2 ≠ pw) ∧
    (∀ w' : BootWorld, ∀ kv ∈ (collectorConfigFunc w').envWrites,
      kv.1 = "PGSSLCERT" ∨ kv.1 = "PGSSLKEY" ∨ kv.1 = "PGSSLROOTCERT") := by
  have hkeys : ∀ w' : BootWorld, ∀ kv ∈ (collectorConfigFunc w').envWrites,
      kv.1 = "PGSSLCERT" ∨ kv.1 = "PGSSLKEY" ∨ kv.1 = "PGSSLROOTCERT" := by
    intro w' kv hkv
    unfold collectorConfigFunc at hkv
    repeat' split at hkv
    all_goals simp_all
    all_goals rcases hkv with rfl | rfl | rfl <;> simp
  have hmain : (collectorConfigFunc w).envWrites =
      [("PGSSLCERT", cc), ("PGSSLKEY", ck), ("PGSSLROOTCERT", sc)] ∧
      (collectorConfigFunc w).dsn = some ("password=" ++ "\x27" ++ pw ++ "\x27") := by
    unfold collectorConfigFunc at hok ⊢
    repeat' split at hok
    all_goals simp_all
  refine ⟨hmain.1, hmain.2, ?_, hkeys⟩
  intro h1 h2 h3 kv hkv
  rw [hmain.1] at hkv
  simp only [List.mem_cons, List.not_mem_nil, or_false] at hkv
  rcases hkv with rfl | rfl | rfl
  · exact fun hc => h1 hc.symm
  · exact fun hc => h2 hc.symm
  · exact fun hc => h3 hc.symm

/-- Witness for C7: a bootstrap world where every step succeeds. -/
theorem password_only_in_dsn_witness :
    ((⟨fun _ => "proj", none, none, none, fun o => .ok ("S-" ++ o),
        fun o => .ok ("/tmp/" ++ o), fun _ _ => none, none⟩ : BootWorld).fetchString
      "password" = .ok "S-password") ∧
    ((collectorConfigFunc ⟨fun _ => "proj", none, none, none, fun o => .ok ("S-" ++ o),
        fun o => .ok ("/tmp/" ++ o), fun _ _ => none, none⟩).err = none) ∧
    (collectorConfigFunc ⟨fun _ => "proj", none, none, none, fun o => .ok ("S-" ++ o),
        fun o => .ok ("/tmp/" ++ o), fun _ _ => none, none⟩).envWrites =
      [("PGSSLCERT", "/tmp/client.pem"), ("PGSSLKEY", "/tmp/client.key"),
        ("PGSSLROOTCERT", "/tmp/server.pem")] ∧
    (collectorConfigFunc ⟨fun _ => "proj", none, none, none, fun o => .ok ("S-" ++ o),
        fun o => .ok ("/tmp/" ++ o), fun _ _ => none, none⟩).dsn =
      some ("password=" ++ "\x27" ++ "S-password" ++ "\x27") :=
  ⟨rfl, rfl,
    (password_only_in_dsn ⟨fun _ => "proj", none, none, none, fun o => .ok ("S-" ++ o),
        fun o => .ok ("/tmp/" ++ o), fun _ _ => none, none⟩
      "S-password" "/tmp/client.pem" "/tmp/client.key" "/tmp/server.pem"
      rfl rfl rfl rfl rfl).1,
    (password_only_in_dsn ⟨fun _ => "proj", none, none, none, fun o => .ok ("S-" ++ o),
        fun o => .ok ("/tmp/" ++ o), fun _ _ => none, none⟩
      "S-password" "/tmp/client.pem" "/tmp/client.key" "/tmp/server.pem"
      rfl rfl rfl rfl rfl).2.1⟩

/-- C8: the collector dereferences the first element of the geocoding
candidate slice and of the forecast period slice without a bounds check:
an empty slice is an index-out-of-range panic (modelled `none`), and the
accesses are safe exactly when the slices are non-empty. -/
theorem unguarded_first_index
    (mc : String → Except GoError FindPlaceResponse)
    (um : String → Except GoError HourlyForecast) (loc : String) (s : Nat) (b : String) :
    (mc loc = .ok ⟨[]⟩ → findPlaceIDFromText mc loc = none) ∧
    (∀ ty, um b = .ok ⟨ty, ⟨[]⟩⟩ → getTemperature (.ok ⟨s, b⟩) um = none) ∧
    (∀ c cs, mc loc = .ok ⟨c :: cs⟩ →
      findPlaceIDFromText mc loc = some (.ok c.placeID)) ∧
    (∀ ty p ps, um b = .ok ⟨ty, ⟨p :: ps⟩⟩ →
      getTemperature (.ok ⟨s, b⟩) um = some (.ok p.temperature)) := by
  refine ⟨?_, ?_, ?_, ?_⟩
  · intro h
    simp [findPlaceIDFromText, h]
  · intro ty h
    simp [getTemperature, h]
  · intro c cs h
    simp [findPlaceIDFromText, h]
  · intro ty p ps h
    simp [getTemperature, h]

/-- Witness for C8: an empty candidate slice and an empty period slice
both reach the panic case. -/
theorem unguarded_first_index_witness :
    ((fun _ => .ok ⟨[]⟩ : String → Except GoError FindPlaceResponse) "Denver" = .ok ⟨[]⟩) ∧
    findPlaceIDFromText (fun _ => .ok ⟨[]⟩) "Denver" = none ∧
    getTemperature (.ok ⟨404, "body"⟩)
      (fun _ => .ok ⟨"Feature", ⟨[]⟩⟩) = none :=
  ⟨rfl,
    (unguarded_first_index (fun _ => .ok ⟨[]⟩) (fun _ => .ok ⟨"Feature", ⟨[]⟩⟩)
      "Denver" 404 "body").1 rfl,
    (unguarded_first_index (fun _ => .ok ⟨[]⟩) (fun _ => .ok ⟨"Feature", ⟨[]⟩⟩)
      "Denver" 404 "body").2.1 "Feature" rfl⟩

/-- C9: in the weather-api/assistant variants a bootstrap failure panics
during the first request; the once-guard is nevertheless marked complete,
so every later request hits the deferred flush of the still-nil logger
and panics too — after a failed bootstrap no request ever gets a normal
HTTP response, and the failed `configFunc` is never retried. -/
theorem failed_bootstrap_always_panics (e : GoError) (handle : Unit → HttpResponse)
    (n : Nat) (hn : 1 ≤ n) :
    (apiRun (.error e) handle initApiState n).1.execCount = 1 ∧
    (apiRun (.error e) handle initApiState n).2 =
      ApiOutcome.panicked e.message ::
        List.replicate (n - 1)
          (.panicked "runtime error: invalid memory address or nil pointer dereference") ∧
    ∀ o ∈ (apiRun (.error e) handle initApiState n).2, ∀ resp, o ≠ .responded resp := by
  obtain ⟨m, rfl⟩ : ∃ m, n = m + 1 := ⟨n - 1, (Nat.succ_pred_eq_of_pos hn).symm⟩
  have h := apiRun_done_nilLogger (.error e) handle ⟨true, 1, false⟩ rfl rfl m
  have hrun : apiRun (.error e) handle initApiState (m + 1) =
      (⟨true, 1, false⟩, .panicked e.message ::
        List.replicate m
          (.panicked "runtime error: invalid memory address or nil pointer dereference")) := by
    simp [apiRun, apiInvoke, initApiState, h]
  refine ⟨by rw [hrun], by rw [hrun]; simp, ?_⟩
  intro o ho resp
  rw [hrun] at ho
  simp only [List.mem_cons] at ho
  rcases ho with rfl | ho
  · simp
  · have := List.eq_of_mem_replicate ho
    subst this
    simp

/-- Witness for C9: a failing bootstrap and two requests. -/
theorem failed_bootstrap_always_panics_witness :
    1 ≤ 2 ∧
    ((apiRun (.error (.other "boom")) (fun _ => ⟨200, "ok"⟩) initApiState 2).1.execCount = 1 ∧
     (apiRun (.error (.other "boom")) (fun _ => ⟨200, "ok"⟩) initApiState 2).2 =
       ApiOutcome.panicked (GoError.other "boom").message ::
         List.replicate (2 - 1)
           (.panicked "runtime error: invalid memory address or nil pointer dereference") ∧
     ∀ o ∈ (apiRun (.error (.other "boom")) (fun _ => ⟨200, "ok"⟩) initApiState 2).2,
       ∀ resp, o ≠ .responded resp) :=
  ⟨by decide,
    failed_bootstrap_always_panics (.other "boom") (fun _ => ⟨200, "ok"⟩) 2 (by decide)⟩

/-- C10: the collector's forecast fetch never reads the response status
code — two responses differing only in status give identical results,
and a non-200 response with a parseable body still yields the first
period's temperature rather than an error; the webhook handler's
`getWeather`, by contrast, turns every non-200 downstream response into
an error. -/
theorem getTemperature_ignores_status
    (um : String → Except GoError HourlyForecast) (s₁ s₂ : Nat) (b : String) :
    getTemperature (.ok ⟨s₁, b⟩) um = getTemperature (.ok ⟨s₂, b⟩) um ∧
    (∀ ty p ps, s₁ ≠ 200 → um b = .ok ⟨ty, ⟨p :: ps⟩⟩ →
      getTemperature (.ok ⟨s₁, b⟩) um = some (.ok p.temperature)) ∧
    (∀ (doGet : String → Except GoError HttpResp)
        (umw : String → Except GoError Weather)
        (qe : String → String) (url ev b' : String),
      doGet (url ++ "?event=" ++ qe ev) = .ok ⟨s₁, b'⟩ → s₁ ≠ 200 →
      getWeather doGet umw qe url ev =
        .error (.other ("non 200 response code: " ++ b'))) := by
  refine ⟨rfl, ?_, ?_⟩
  · intro ty p ps _ h
    simp [getTemperature, h]
  · intro doGet umw qe url ev b' hdo hs
    simp [getWeather, hdo, hs]

/-- Witness for C10: a 404 forecast response with a parseable body still
yields the first period's 65 degrees. -/
theorem getTemperature_ignores_status_witness :
    getTemperature (.ok ⟨404, "fjson"⟩)
        (fun _ => .ok ⟨"Feature", ⟨[⟨65⟩]⟩⟩) =
      getTemperature (.ok ⟨200, "fjson"⟩)
        (fun _ => .ok ⟨"Feature", ⟨[⟨65⟩]⟩⟩) ∧
    ((404 : Nat) ≠ 200) ∧
    getTemperature (.ok ⟨404, "fjson"⟩)
        (fun _ => .ok ⟨"Feature", ⟨[⟨65⟩]⟩⟩) = some (.ok 65) :=
  ⟨(getTemperature_ignores_status (fun _ => .ok ⟨"Feature", ⟨[⟨65⟩]⟩⟩) 404 200 "fjson").1,
    by decide,
    (getTemperature_ignores_status (fun _ => .ok ⟨"Feature", ⟨[⟨65⟩]⟩⟩) 404 200 "fjson").2.1
      "Feature" ⟨65⟩ [] (by decide) rfl⟩

end WeatherDemo
